import Mathlib

/-!
Verification of the VisionFFE item-extraction and search-correlation pipeline.

The definitions below are a shallow embedding of the frontend pipeline in
`src/frontend/ExtractorApp.tsx` (together with the data shapes of
`src/frontend/types.ts`):

* `itemIdentifier`, `matchesItem`, `correlateItem`, `correlate` embed the
  result-attachment step of `handleSendToApi` (lines 388-409): for each
  previously extracted item that is selected, the first entry of the
  response array whose `query_identifier` equals the item's identifier
  (its persisted `imageUrl` when truthy, else the synthetic
  `"<name>.png"` token) or equals the `"<name>.png"` token outright is
  looked up, and, when that entry is successful, its `results` are
  attached to the item.
* `buildSearchRequest` embeds the request-construction step of
  `handleSendToApi` (lines 346-373): when every selected item has a
  truthy `imageUrl` the URLs are sent, otherwise each selected item's
  image is uploaded as a file named `"<name>.png"`.
* `FormData.appendField`, `runExtractionLoop` and `runExtractionProcess`
  embed the extraction loop of `runExtractionProcess` (lines 219-293).
  The loop aliases the identify-request form data
  (`newFormData = formData`) and appends an `item_name` field to that
  shared object on every iteration, so the body sent for item `i`
  carries the `item_name` fields of all items `1..i`.  Per-item
  extraction failures are caught inside the loop (the item is skipped
  and a console warning naming it is emitted, modelled by the `warned`
  list), and an empty identification result short-circuits with the
  user-facing error message.  `Date.now()` in the generated item id is
  modelled by the explicit `now` argument; the backend call is modelled
  by the `extract` oracle, whose result depends only on the request
  body.
* `identifyDedup` is modelled from the spec (see its doc comment): the
  backend item identifier is not among the repository sources.
-/

namespace VisionFFE

/-- One ranked search result, after `SearchResult` in
`src/frontend/types.ts` (the float `similarity_score` travels through the
correlation step uninspected and is modelled as a rational). -/
structure SearchResult where
  id : String
  similarityScore : Rat
  metadata : List (String × String)
  imagePath : String
  filename : String
deriving DecidableEq

/-- One extracted item, after `ExtractedItem` in `src/frontend/types.ts`. -/
structure ExtractedItem where
  id : String
  name : String
  imageBase64 : String
  imageUrl : Option String
  subcategory : Option String
  searchResults : Option (List SearchResult)
deriving DecidableEq

/-- One entry of the search endpoint's `result.results` array as read by
`handleSendToApi`: the echoed `query_identifier`, the per-query `success`
flag, and the attached `results`. -/
structure SearchOutcome where
  queryIdentifier : String
  success : Bool
  results : List SearchResult
deriving DecidableEq

/-- The identifier the correlation step computes for an item
(`const itemIdentifier = item.imageUrl || item.name + ".png"`,
ExtractorApp.tsx line 394); a persisted `imageUrl` is used only when it
is truthy (non-empty), otherwise the synthetic `"<name>.png"` token. -/
def itemIdentifier (item : ExtractedItem) : String :=
  match item.imageUrl with
  | some u => if u = "" then item.name ++ ".png" else u
  | none => item.name ++ ".png"

/-- The predicate `handleSendToApi` passes to `find` over the response
array (lines 395-397): the outcome's `query_identifier` equals the
item's identifier or equals the `"<name>.png"` token. -/
def matchesItem (item : ExtractedItem) (res : SearchOutcome) : Bool :=
  res.queryIdentifier == itemIdentifier item ||
    res.queryIdentifier == item.name ++ ".png"

/-- Per-item body of the `prevItems.map` in `handleSendToApi`
(lines 391-407): a selected item receives the `results` of the first
matching successful outcome; everything else is returned unchanged. -/
def correlateItem (sel : List String) (outs : List SearchOutcome)
    (item : ExtractedItem) : ExtractedItem :=
  if item.id ∈ sel then
    match outs.find? (matchesItem item) with
    | some m => if m.success then { item with searchResults := some m.results } else item
    | none => item
  else item

/-- The whole result-attachment step of `handleSendToApi`
(lines 390-408): map `correlateItem` over the previously extracted
items. -/
def correlate (sel : List String) (outs : List SearchOutcome)
    (items : List ExtractedItem) : List ExtractedItem :=
  items.map (correlateItem sel outs)

/-- The body sent to the search endpoint, from `handleSendToApi`
(lines 346-373). -/
inductive SearchRequest where
  | urls (urls : List String)
  | files (filenames : List String)
deriving DecidableEq

/-- JS truthiness of `item.imageUrl` as used by
`selectedItems.every(item => item.imageUrl)`: present and non-empty. -/
def urlTruthy (item : ExtractedItem) : Bool :=
  match item.imageUrl with
  | some u => u != ""
  | none => false

/-- Request construction of `handleSendToApi` (lines 347-373): when every
selected item has a truthy `imageUrl`, the URLs are sent
(`map(item => item.imageUrl!).filter(Boolean)`); otherwise every
selected item's image is uploaded as a file named `"<name>.png"` (the
raw name, spaces preserved). -/
def buildSearchRequest (selected : List ExtractedItem) : SearchRequest :=
  if selected.all urlTruthy then
    SearchRequest.urls ((selected.map (fun i => i.imageUrl.getD "")).filter (fun u => u != ""))
  else
    SearchRequest.files (selected.map (fun i => i.name ++ ".png"))

/-- A multipart form body: the ordered list of (field name, value) pairs
appended to it.  Appending mutates the shared object in the source; the
embedding threads the accumulated field list explicitly. -/
structure FormData where
  fields : List (String × String)
deriving DecidableEq

/-- `formData.append(key, value)`. -/
def FormData.appendField (fd : FormData) (key value : String) : FormData :=
  ⟨fd.fields ++ [(key, value)]⟩

/-- Helper for `sanitizeName`: collapse every run of whitespace to a
single `-`, tracking whether the previous character was whitespace. -/
def collapseWsAux : Bool → List Char → List Char
  | _, [] => []
  | prevWs, c :: rest =>
    if c.isWhitespace then
      if prevWs then collapseWsAux true rest
      else '-' :: collapseWsAux true rest
    else c :: collapseWsAux false rest

/-- `name.replace(/\s+/g, '-')` from the generated item id
(ExtractorApp.tsx line 278). -/
def sanitizeName (s : String) : String := ⟨collapseWsAux false s.data⟩

/-- Everything the extraction loop of `runExtractionProcess`
(lines 262-285) produces: the request bodies issued (one per identified
item, in order), the items appended to `extractedItems`, the
`itemsToPersist` queue, and the names of items whose extraction failed
(each named in a `console.warn`). -/
structure ExtractionOutcome where
  requests : List FormData
  succeeded : List ExtractedItem
  persisted : List (String × String)
  warned : List String
deriving DecidableEq

/-- The extraction loop of `runExtractionProcess` (lines 262-285).  Each
iteration aliases the shared form data (`newFormData = formData`),
appends `item_name` to it, sends it (`body: formData`), and on success
appends a fresh `ExtractedItem`; a failed extraction is caught in the
per-item `try`/`catch`, which records the name and continues with the
next item. -/
def runExtractionLoop (extract : FormData → Except String String) (now : String) :
    FormData → List String → ExtractionOutcome
  | _, [] => ⟨[], [], [], []⟩
  | fd, name :: rest =>
    let fd' := fd.appendField "item_name" name
    match extract fd' with
    | Except.ok img =>
      let out := runExtractionLoop extract now fd' rest
      ⟨fd' :: out.requests,
        ⟨sanitizeName name ++ "-" ++ now, name, img, none, none, none⟩ :: out.succeeded,
        (name, img) :: out.persisted,
        out.warned⟩
    | Except.error _ =>
      let out := runExtractionLoop extract now fd' rest
      ⟨fd' :: out.requests, out.succeeded, out.persisted, name :: out.warned⟩

/-- What `runExtractionProcess` leaves behind: the error state set via
`setError` (if any) and the extraction loop's outcome. -/
structure PipelineResult where
  error : Option String
  outcome : ExtractionOutcome
deriving DecidableEq

/-- `runExtractionProcess` from the point where the identified item
names are known (lines 219-293): an empty identification result sets the
error state and skips extraction entirely; otherwise the extraction loop
runs over the shared identify form data. -/
def runExtractionProcess (extract : FormData → Except String String) (now : String)
    (fd : FormData) (itemNames : List String) : PipelineResult :=
  if itemNames.isEmpty then
    ⟨some "No items could be identified in the images. Please try different ones.", ⟨[], [], [], []⟩⟩
  else
    ⟨none, runExtractionLoop extract now fd itemNames⟩

/-- Lower-case a name character by character. -/
def lowerName (s : String) : String := ⟨s.data.map Char.toLower⟩

/-- Strip leading and trailing whitespace from a name. -/
def trimName (s : String) : String :=
  ⟨((s.data.dropWhile Char.isWhitespace).reverse.dropWhile Char.isWhitespace).reverse⟩

/-- The key under which identified item names are compared for
deduplication: trimmed, then lower-cased. -/
def normKey (s : String) : String := lowerName (trimName s)

/-- Helper for `identifyDedup`: keep a name only when its key has not
been seen yet. -/
def dedupAux (seen : List String) : List String → List String
  | [] => []
  | n :: rest =>
    if normKey n ∈ seen then dedupAux seen rest
    else n :: dedupAux (normKey n :: seen) rest

/-- Modelled from the spec: the deduplication performed by the Item
Identifier.  The identification call that decides it
(`backend/gemini_service.py`, `identify_items`) is not among the
repository sources; only its callers are
(`runExtractionProcess` in `ExtractorApp.tsx` and
`BackendGeminiService.identifyItems`, both of which forward the returned
name list verbatim).  Spec 4.2: "Deduplicates case-insensitively after
trimming whitespace; preserves first-seen order." -/
def identifyDedup (names : List String) : List String := dedupAux [] names

/-! Concrete sample data used by counterexamples and witnesses. -/

/-- A sample ranked search result. -/
def r0 : SearchResult := ⟨"cat-0", 1, [], "p0", "f0"⟩

/-- A second sample result, distinct from `r0`. -/
def r1 : SearchResult := ⟨"cat-1", 1, [], "p1", "f1"⟩

/-- A third sample result, distinct from `r0` and `r1`. -/
def r2 : SearchResult := ⟨"cat-2", 1, [], "p2", "f2"⟩

/-- An unpersisted extracted item named `Chair`. -/
def chairA : ExtractedItem := ⟨"Chair-1", "Chair", "imgA", none, none, none⟩

/-- A second, distinct unpersisted extracted item also named `Chair`. -/
def chairB : ExtractedItem := ⟨"Chair-2", "Chair", "imgB", none, none, none⟩

/-- An extracted item named `Chair` with a persisted `imageUrl` `"u"`. -/
def itemMixedA : ExtractedItem := ⟨"A1", "Chair", "imgA", some "u", none, none⟩

/-- An unpersisted extracted item named `Sofa`. -/
def itemMixedB : ExtractedItem := ⟨"B1", "Sofa", "imgB", none, none, none⟩

/-- An unpersisted extracted item named `Desk`. -/
def itemPlain : ExtractedItem := ⟨"P1", "Desk", "imgP", none, none, none⟩

/-- A successful outcome echoing `Chair.png` with results `[r0]`. -/
def outChairR0 : SearchOutcome := ⟨"Chair.png", true, [r0]⟩

/-- A successful outcome echoing `Chair.png` with results `[r1]`. -/
def outChairR1 : SearchOutcome := ⟨"Chair.png", true, [r1]⟩

/-- A successful outcome echoing `Chair.png` with results `[r2]`. -/
def outChairR2 : SearchOutcome := ⟨"Chair.png", true, [r2]⟩

/-- A successful outcome echoing `Sofa.png` with results `[r1]`. -/
def outSofaR1 : SearchOutcome := ⟨"Sofa.png", true, [r1]⟩

/-- A successful outcome echoing the persisted URL `"u"` with results `[r1]`. -/
def outUrlR1 : SearchOutcome := ⟨"u", true, [r1]⟩

/-- An extraction oracle that fails exactly on the request whose fields
are `item_name = Sofa` followed by `item_name = Lamp`. -/
def extractOracle : FormData → Except String String :=
  fun fd =>
    if fd.fields = [("item_name", "Sofa"), ("item_name", "Lamp")] then Except.error "boom"
    else Except.ok "IMG"

/-! Helper lemmas shared by several claims. -/

/-- `find?` returns the head of the filtered list. -/
theorem find?_eq_head?_filter {α : Type _} (p : α → Bool) :
    ∀ l : List α, l.find? p = (l.filter p).head?
  | [] => rfl
  | x :: l => by
    cases hp : p x
    · rw [List.find?_cons_of_neg _ (by simp [hp]), List.filter_cons_of_neg (by simp [hp])]
      exact find?_eq_head?_filter p l
    · rw [List.find?_cons_of_pos _ hp, List.filter_cons_of_pos hp]
      rfl

/-- Permutations of lists with at most one element are equal. -/
theorem perm_eq_of_length_le_one {α : Type _} :
    ∀ {l₁ l₂ : List α}, l₁.Perm l₂ → l₁.length ≤ 1 → l₁ = l₂
  | [], _, h, _ => (h.symm.eq_nil).symm
  | [_], _, h, _ => (List.perm_singleton.mp h.symm).symm
  | _ :: _ :: _, _, _, hl => absurd hl (by simp)

/-- `find?` is invariant under permutation when at most one element
satisfies the predicate. -/
theorem find?_perm_of_subsingleton {α : Type _} (p : α → Bool) {l₁ l₂ : List α}
    (h : l₁.Perm l₂) (hu : (l₁.filter p).length ≤ 1) : l₁.find? p = l₂.find? p := by
  rw [find?_eq_head?_filter, find?_eq_head?_filter,
    perm_eq_of_length_le_one (h.filter p) hu]

/-- Two unpersisted items with the same name are matched by exactly the
same outcomes. -/
theorem matchesItem_congr {a b : ExtractedItem} (hua : a.imageUrl = none)
    (hub : b.imageUrl = none) (hname : a.name = b.name) :
    matchesItem a = matchesItem b := by
  funext o
  simp [matchesItem, itemIdentifier, hua, hub, hname]

/-- The deduplicated list is a sublist of the input (first-seen order,
entries verbatim). -/
theorem dedupAux_sublist : ∀ (seen names : List String),
    (dedupAux seen names).Sublist names
  | _, [] => List.Sublist.slnil
  | seen, n :: rest => by
    rw [dedupAux]
    by_cases h : normKey n ∈ seen
    · rw [if_pos h]
      exact (dedupAux_sublist seen rest).cons n
    · rw [if_neg h]
      exact (dedupAux_sublist (normKey n :: seen) rest).cons₂ n

/-- Keys of entries kept by `dedupAux` were not in the seen set. -/
theorem mem_dedupAux_not_seen : ∀ (seen names : List String) (x : String),
    x ∈ dedupAux seen names → normKey x ∉ seen
  | _, [], x, hx => absurd hx (by rw [dedupAux]; exact List.not_mem_nil x)
  | seen, n :: rest, x, hx => by
    rw [dedupAux] at hx
    by_cases h : normKey n ∈ seen
    · rw [if_pos h] at hx
      exact mem_dedupAux_not_seen seen rest x hx
    · rw [if_neg h] at hx
      rcases List.mem_cons.mp hx with rfl | hx'
      · exact h
      · intro hseen
        exact mem_dedupAux_not_seen _ rest x hx' (List.mem_cons_of_mem _ hseen)

/-- No two entries kept by `dedupAux` share a key. -/
theorem dedupAux_pairwise : ∀ (seen names : List String),
    (dedupAux seen names).Pairwise (fun a b => normKey a ≠ normKey b)
  | _, [] => List.Pairwise.nil
  | seen, n :: rest => by
    rw [dedupAux]
    by_cases h : normKey n ∈ seen
    · rw [if_pos h]
      exact dedupAux_pairwise seen rest
    · rw [if_neg h]
      refine List.Pairwise.cons ?_ (dedupAux_pairwise _ rest)
      intro y hy heq
      apply mem_dedupAux_not_seen _ rest y hy
      rw [← heq]
      exact List.mem_cons_self _ _

/-- Every input name's key is either already seen or represented in the
output. -/
theorem dedupAux_complete : ∀ (seen names : List String) (x : String), x ∈ names →
    normKey x ∈ seen ∨ ∃ y ∈ dedupAux seen names, normKey y = normKey x
  | _, [], x, hx => absurd hx (List.not_mem_nil x)
  | seen, n :: rest, x, hx => by
    rw [dedupAux]
    by_cases h : normKey n ∈ seen
    · rw [if_pos h]
      rcases List.mem_cons.mp hx with rfl | hx'
      · exact Or.inl h
      · exact dedupAux_complete seen rest x hx'
    · rw [if_neg h]
      rcases List.mem_cons.mp hx with rfl | hx'
      · exact Or.inr ⟨x, List.mem_cons_self _ _, rfl⟩
      · rcases dedupAux_complete (normKey n :: seen) rest x hx' with hseen | ⟨y, hy, hkey⟩
        · rcases List.mem_cons.mp hseen with heq | hseen'
          · exact Or.inr ⟨n, List.mem_cons_self _ _, heq.symm⟩
          · exact Or.inl hseen'
        · exact Or.inr ⟨y, List.mem_cons_of_mem _ hy, hkey⟩

/-! Claim theorems. -/

/-- C1, counterexample: two distinct selected items that both resolve to
the synthetic identifier `Chair.png` do not fail the batch — the
correlation step (a total function) silently attaches the same
outcome's results to both items; no `CorrelationCollision` error
exists. -/
theorem c1_counterexample :
    correlate ["Chair-1", "Chair-2"] [outChairR0] [chairA, chairB] =
      [{ chairA with searchResults := some [r0] },
       { chairB with searchResults := some [r0] }] := by decide

/-- C1, amended: when two distinct selected items without persisted
`imageUrl` share a name (hence resolve to the same `QueryIdentifier`),
the correlation step attaches the results of the first matching
successful outcome to each of them — the same results to both — and
never fails the batch. -/
theorem c1_collision_attaches_both (sel : List String) (outs : List SearchOutcome)
    (a b : ExtractedItem) (o : SearchOutcome)
    (hsa : a.id ∈ sel) (hsb : b.id ∈ sel)
    (hua : a.imageUrl = none) (hub : b.imageUrl = none) (hname : a.name = b.name)
    (hfind : outs.find? (matchesItem a) = some o) (hsucc : o.success = true) :
    correlateItem sel outs a = { a with searchResults := some o.results } ∧
    correlateItem sel outs b = { b with searchResults := some o.results } := by
  have hfb : outs.find? (matchesItem b) = some o := by
    rw [← matchesItem_congr hua hub hname]
    exact hfind
  constructor
  · unfold correlateItem
    rw [if_pos hsa, hfind]
    simp [hsucc]
  · unfold correlateItem
    rw [if_pos hsb, hfb]
    simp [hsucc]

/-- C1, witness for the amended theorem at a concrete collision. -/
theorem c1_witness :
    correlateItem ["Chair-1", "Chair-2"] [outChairR0] chairA =
      { chairA with searchResults := some [r0] } ∧
    correlateItem ["Chair-1", "Chair-2"] [outChairR0] chairB =
      { chairB with searchResults := some [r0] } :=
  c1_collision_attaches_both ["Chair-1", "Chair-2"] [outChairR0] chairA chairB outChairR0
    (by decide) (by decide) rfl rfl rfl (by decide) rfl

/-- C2, counterexample: an outcome echoing `Chair.png` attaches to the
item whose `QueryIdentifier` is the persisted URL `"u"` (matching is not
restricted to the `QueryIdentifier`), and when two outcomes match the
same items the attachment depends on the position of the outcomes in
the response array. -/
theorem c2_counterexample :
    itemIdentifier itemMixedA = "u" ∧
    (correlate ["A1", "B1"] [outChairR0, outSofaR1] [itemMixedA, itemMixedB]).map
      (fun i => i.searchResults) = [some [r0], some [r1]] ∧
    correlate ["Chair-1", "Chair-2"] [outChairR1, outChairR2] [chairA, chairB] ≠
      correlate ["Chair-1", "Chair-2"] [outChairR2, outChairR1] [chairA, chairB] := by decide

/-- C2, amended: the correlation step matches an outcome to an item by
comparing the outcome's `query_identifier` with the item's identifier
(persisted `imageUrl` when truthy, else `"<name>.png"`) and with the
`"<name>.png"` token, taking the first outcome in response order that
matches; whenever each item matches at most one outcome of the
response, the attachment is independent of the order of the outcomes. -/
theorem c2_perm_invariant (sel : List String) (items : List ExtractedItem)
    {l₁ l₂ : List SearchOutcome} (hperm : l₁.Perm l₂)
    (hu : ∀ item ∈ items, (l₁.filter (matchesItem item)).length ≤ 1) :
    correlate sel l₁ items = correlate sel l₂ items := by
  unfold correlate
  refine List.map_congr_left ?_
  intro item hitem
  unfold correlateItem
  rw [find?_perm_of_subsingleton _ hperm (hu item hitem)]

/-- C2, witness for the amended theorem on a concrete transposition. -/
theorem c2_witness :
    correlate ["B1"] [outSofaR1, outChairR0] [itemMixedB] =
      correlate ["B1"] [outChairR0, outSofaR1] [itemMixedB] :=
  c2_perm_invariant ["B1"] [itemMixedB] (List.Perm.swap outChairR0 outSofaR1 []) (by decide)

/-- C3: a failing extraction for one item is caught inside the loop:
the remaining items are still attempted and complete, the successes
appear in the extracted-items collection, and the failed item's name is
surfaced (the `console.warn` naming it, modelled by `warned`). -/
theorem c3_failure_isolated (extract : FormData → Except String String) (now : String)
    (fd : FormData) (n₁ n₂ n₃ img₁ img₃ e : String)
    (h₁ : extract (fd.appendField "item_name" n₁) = Except.ok img₁)
    (h₂ : extract ((fd.appendField "item_name" n₁).appendField "item_name" n₂) =
      Except.error e)
    (h₃ : extract (((fd.appendField "item_name" n₁).appendField "item_name" n₂).appendField
      "item_name" n₃) = Except.ok img₃) :
    (runExtractionLoop extract now fd [n₁, n₂, n₃]).succeeded.map ExtractedItem.name =
      [n₁, n₃] ∧
    (runExtractionLoop extract now fd [n₁, n₂, n₃]).warned = [n₂] ∧
    (runExtractionLoop extract now fd [n₁, n₂, n₃]).requests.length = 3 := by
  simp [runExtractionLoop, h₁, h₂, h₃]

/-- C3, witness: middle item of three fails, the other two succeed. -/
theorem c3_witness :
    (runExtractionLoop extractOracle "t0" ⟨[]⟩ ["Sofa", "Lamp", "Chair"]).succeeded.map
      ExtractedItem.name = ["Sofa", "Chair"] ∧
    (runExtractionLoop extractOracle "t0" ⟨[]⟩ ["Sofa", "Lamp", "Chair"]).warned = ["Lamp"] ∧
    (runExtractionLoop extractOracle "t0" ⟨[]⟩ ["Sofa", "Lamp", "Chair"]).requests.length = 3 :=
  c3_failure_isolated extractOracle "t0" ⟨[]⟩ "Sofa" "Lamp" "Chair" "IMG" "IMG" "boom"
    rfl rfl rfl

/-- C4: evaluating the extraction loop at the failing input
`["Chair", "Sofa"]` shows the shared, mutated form data leaking into
later requests: the request issued for the second item carries the
`item_name` field appended for the first item as well as its own, so it
holds two `item_name` fields instead of exactly one. -/
theorem c4_shared_request_leak :
    (runExtractionLoop (fun _ => Except.ok "img") "t0" ⟨[]⟩ ["Chair", "Sofa"]).requests =
      [⟨[("item_name", "Chair")]⟩, ⟨[("item_name", "Chair"), ("item_name", "Sofa")]⟩] ∧
    ((runExtractionLoop (fun _ => Except.ok "img") "t0" ⟨[]⟩ ["Chair", "Sofa"]).requests.map
      (fun fd => (fd.fields.filter (fun kv => kv.1 == "item_name")).length)) = [1, 2] := by
  decide

/-- C5: the identification output (modelled from the spec, see
`identifyDedup`) contains no two entries equal after trimming and
case-folding, is a sublist of the input (first-seen order, first-seen
casing and trimming kept verbatim), represents every input name's
normalized key, and collapses the `["Sofa", "sofa ", "SOFA"]` variants
to exactly `["Sofa"]`. -/
theorem c5_identify_dedup (names : List String) :
    (identifyDedup names).Pairwise (fun a b => normKey a ≠ normKey b) ∧
    (identifyDedup names).Sublist names ∧
    (∀ x ∈ names, ∃ y ∈ identifyDedup names, normKey y = normKey x) ∧
    identifyDedup ["Sofa", "sofa ", "SOFA"] = ["Sofa"] := by
  refine ⟨dedupAux_pairwise [] names, dedupAux_sublist [] names, ?_, by decide⟩
  intro x hx
  rcases dedupAux_complete [] names x hx with h | h
  · exact absurd h (List.not_mem_nil _)
  · exact h

/-- C5, witness at the spec's own example input. -/
theorem c5_witness :
    identifyDedup ["Sofa", "sofa ", "SOFA"] = ["Sofa"] ∧
    ∃ y ∈ identifyDedup ["Sofa", "sofa ", "SOFA"], normKey y = normKey "SOFA" :=
  ⟨(c5_identify_dedup ["Sofa", "sofa ", "SOFA"]).2.2.2,
   (c5_identify_dedup ["Sofa", "sofa ", "SOFA"]).2.2.1 "SOFA" (by decide)⟩

/-- C6: the loop is sequential and appends each successfully extracted
item as it completes, so the names of the successfully extracted items
form a sublist of the identified names — the final collection is in the
original identification order for every extraction oracle (timing does
not exist in the sequential loop; the order never depends on it). -/
theorem c6_order_preserved (extract : FormData → Except String String) (now : String) :
    ∀ (fd : FormData) (names : List String),
      ((runExtractionLoop extract now fd names).succeeded.map ExtractedItem.name).Sublist names
  | _, [] => by
    rw [runExtractionLoop]
    exact List.Sublist.slnil
  | fd, n :: rest => by
    rw [runExtractionLoop]
    have ih := c6_order_preserved extract now (fd.appendField "item_name" n) rest
    cases hx : extract (fd.appendField "item_name" n) with
    | ok img =>
      simpa using ih.cons₂ n
    | error e =>
      simpa using ih.cons n

/-- C7, counterexample: an empty identification result does not leave
the pipeline error-free — `runExtractionProcess` sets the user-facing
error state. -/
theorem c7_counterexample :
    (runExtractionProcess (fun _ => Except.ok "img") "t0" ⟨[]⟩ []).error ≠ none := by decide

/-- C7, amended: when identification returns zero item names the
pipeline performs no extraction work at all (no requests, no items, no
warnings — an empty outcome with zero items requested) and does not
throw, but it does treat the empty result as an error: it stops after
setting the error message "No items could be identified in the images.
Please try different ones.". -/
theorem c7_empty_identification (extract : FormData → Except String String) (now : String)
    (fd : FormData) :
    runExtractionProcess extract now fd [] =
      ⟨some "No items could be identified in the images. Please try different ones.",
       ⟨[], [], [], []⟩⟩ := rfl

/-- C8: the result-attachment step is deterministic — two runs of
`correlate` on equal extracted-item lists, selected-id sets and
search-outcome lists produce equal outputs; the computation has no
hidden randomness (it is a pure function of these three inputs). -/
theorem c8_correlate_deterministic (sel₁ sel₂ : List String)
    (outs₁ outs₂ : List SearchOutcome) (items₁ items₂ : List ExtractedItem)
    (hsel : sel₁ = sel₂) (houts : outs₁ = outs₂) (hitems : items₁ = items₂) :
    correlate sel₁ outs₁ items₁ = correlate sel₂ outs₂ items₂ := by
  rw [hsel, houts, hitems]

/-- C8, witness at concrete inputs. -/
theorem c8_witness :
    correlate ["Chair-1"] [outChairR0] [chairA] = correlate ["Chair-1"] [outChairR0] [chairA] :=
  c8_correlate_deterministic ["Chair-1"] ["Chair-1"] [outChairR0] [outChairR0]
    [chairA] [chairA] rfl rfl rfl

/-- C9, counterexample: a selected item whose `QueryIdentifier` is its
persisted URL `"u"` — which matches no outcome in the response — is
nonetheless modified, because the code additionally matches the
`"<name>.png"` token. -/
theorem c9_counterexample :
    itemIdentifier itemMixedA = "u" ∧
    (∀ o ∈ [outChairR0], o.queryIdentifier ≠ "u") ∧
    correlate ["A1"] [outChairR0] [itemMixedA] ≠ [itemMixedA] := by decide

/-- C9, amended: the result-attachment step only ever changes the
`searchResults` field (id, name, image data, and URL are always
preserved); an item that is not selected is returned unchanged, and a
selected item is returned unchanged whenever no successful outcome
matches it — where matching compares the outcome's `query_identifier`
against the item's identifier and against its `"<name>.png"` token,
not against the preferred `QueryIdentifier` alone. -/
theorem c9_frame (sel : List String) (outs : List SearchOutcome) (item : ExtractedItem) :
    (correlateItem sel outs item).id = item.id ∧
    (correlateItem sel outs item).name = item.name ∧
    (correlateItem sel outs item).imageBase64 = item.imageBase64 ∧
    (correlateItem sel outs item).imageUrl = item.imageUrl ∧
    (item.id ∉ sel → correlateItem sel outs item = item) ∧
    ((∀ o ∈ outs, matchesItem item o = true → o.success = false) →
      correlateItem sel outs item = item) := by
  unfold correlateItem
  split
  next hid =>
    split
    next m hf =>
      split
      next hs =>
        refine ⟨rfl, rfl, rfl, rfl, fun h => absurd hid h, fun hall => ?_⟩
        have hm := List.find?_some hf
        have hmem := List.mem_of_find?_eq_some hf
        have hcontra := hall m hmem hm
        rw [hs] at hcontra
        exact absurd hcontra (by simp)
      next hs =>
        exact ⟨rfl, rfl, rfl, rfl, fun h => absurd hid h, fun _ => rfl⟩
    next hf =>
      exact ⟨rfl, rfl, rfl, rfl, fun h => absurd hid h, fun _ => rfl⟩
  next hid =>
    exact ⟨rfl, rfl, rfl, rfl, fun _ => rfl, fun _ => rfl⟩

/-- C9, witness: an unselected item and a selected-but-unmatched item
both pass through unchanged. -/
theorem c9_witness :
    correlateItem ["A1"] [] itemPlain = itemPlain ∧
    correlateItem ["P1"] [outChairR0] itemPlain = itemPlain :=
  ⟨(c9_frame ["A1"] [] itemPlain).2.2.2.2.1 (by decide),
   (c9_frame ["P1"] [outChairR0] itemPlain).2.2.2.2.2 (by decide)⟩

/-- C10: when some selected item lacks a persisted `imageUrl`, the file
upload path is taken and every selected item's file is named exactly
`"<name>.png"` (raw name, spaces preserved); the unpersisted item's own
filename is among them, and any outcome echoing that filename satisfies
the correlation step's match test for the originating item. -/
theorem c10_roundtrip (selected : List ExtractedItem) (item : ExtractedItem)
    (hmem : item ∈ selected) (hurl : item.imageUrl = none) :
    buildSearchRequest selected =
      SearchRequest.files (selected.map (fun i => i.name ++ ".png")) ∧
    (item.name ++ ".png") ∈ selected.map (fun i => i.name ++ ".png") ∧
    (∀ o : SearchOutcome, o.queryIdentifier = item.name ++ ".png" →
      matchesItem item o = true) := by
  have hfalse : urlTruthy item = false := by simp [urlTruthy, hurl]
  have hall : ¬ selected.all urlTruthy = true := by
    intro h
    have := List.all_eq_true.mp h item hmem
    rw [hfalse] at this
    exact absurd this (by simp)
  refine ⟨?_, List.mem_map.mpr ⟨item, hmem, rfl⟩, ?_⟩
  · unfold buildSearchRequest
    rw [if_neg hall]
  · intro o ho
    simp [matchesItem, ho]

/-- C10, witness: a single unpersisted `Desk` item. -/
theorem c10_witness :
    buildSearchRequest [itemPlain] =
      SearchRequest.files ([itemPlain].map (fun i => i.name ++ ".png")) ∧
    ("Desk.png") ∈ [itemPlain].map (fun i => i.name ++ ".png") ∧
    (∀ o : SearchOutcome, o.queryIdentifier = "Desk.png" →
      matchesItem itemPlain o = true) :=
  c10_roundtrip [itemPlain] itemPlain (List.mem_singleton.mpr rfl) rfl

end VisionFFE
